import Mathlib

/-!
Verification of the girc IRC client core (client.go, handler.go): the
connection lifecycle (Connect, cleanup, quit, reconnect), the cancellation
token wiring of the background tasks, the handler registry of the dispatch
engine (Caller), and the outbound command builders (Join, Part), shallowly
embedded in Lean. Machine integers of the source are modelled as Int/Nat
(no value here approaches an overflow boundary), Go maps as association
lists, goroutine launches and channel sends as entries of an explicit
effect log (World), and the excluded collaborators (transport dial, encoder,
capability negotiation, nick/channel validity) as oracles passed in.
-/

namespace Girc

/-- Modelled from the spec: the command-constant table (girc constants
file) is not among the provided sources. The spec names the join-style
command JOIN, the part-style command family, the session-opening commands
(password, nickname, user/realname) and the virtual events "initialized",
"disconnected" and "stopped"; IRC protocol verbs are their own names. -/
def JOIN : String := "JOIN"

/-- Modelled from the spec: the part-style protocol verb. -/
def PART : String := "PART"

/-- Modelled from the spec: the password session-opening verb. -/
def PASS : String := "PASS"

/-- Modelled from the spec: the nickname session-opening verb. -/
def NICK : String := "NICK"

/-- Modelled from the spec: the user/realname session-opening verb. -/
def USER : String := "USER"

/-- Modelled from the spec: the protocol quit verb. -/
def QUIT : String := "QUIT"

/-- Modelled from the spec: virtual event emitted on socket connection. -/
def INITIALIZED : String := "CLIENT_INIT"

/-- Modelled from the spec: virtual event emitted on disconnect. -/
def DISCONNECTED : String := "CLIENT_DISCONNECTED"

/-- Modelled from the spec: virtual event emitted by Stop. -/
def STOPPED : String := "CLIENT_STOPPED"

/-- The error values of client.go: the three declared error variables
(ErrNotConnected, ErrAlreadyConnecting, ErrDisconnected), the three
validation errors constructed inside Connect, the ErrInvalidTarget shape,
and opaque transport/encoder/negotiation failures carried by the oracles. -/
inductive GoErr where
  | notConnected
  | alreadyConnecting
  | disconnected
  | invalidServer
  | invalidPort
  | invalidNickUser
  | invalidTarget (t : String)
  | dialFailed (n : Nat)
  | writeFailed (n : Nat)
  | capFailed (n : Nat)
deriving DecidableEq

/-- The Event record (command, positional params, trailing, sensitive), as
used by the client methods under verification. -/
structure Event where
  command : String
  params : List String := []
  trailing : String := ""
  sensitive : Bool := false
deriving DecidableEq

/-- Characters the Go fmt scanner treats as white space when scanning with
a string verb. -/
def goSpace (ch : Char) : Bool :=
  ch == ' ' || ch == '\t' || ch == '\n' || ch == '\r' || ch == '\x0b' || ch == '\x0c'

/-- Association-list lookup, modelling a read from a Go map keyed by
strings. -/
def mapLookup {α : Type} (m : List (String × α)) (k : String) : Option α :=
  (m.find? (fun p => p.1 == k)).map (fun p => p.2)

/-- Association-list insert/overwrite, modelling a Go map assignment. -/
def mapInsert {α : Type} (m : List (String × α)) (k : String) (v : α) :
    List (String × α) :=
  match m with
  | [] => [(k, v)]
  | p :: rest => if p.1 == k then (k, v) :: rest else p :: mapInsert rest k v

/-- Association-list erase, modelling a Go map delete. -/
def mapErase {α : Type} (m : List (String × α)) (k : String) :
    List (String × α) :=
  m.filter (fun p => ! (p.1 == k))

/-- The Caller registries (handler.go): external and internal are maps of
structure map[COMMAND][UID]Handler. Handlers are identified by an opaque
numeric id; their behaviour plays no role in the registry claims. -/
structure Caller where
  external : List (String × List (String × Nat)) := []
  internal : List (String × List (String × Nat)) := []
deriving DecidableEq

/-- Embeds Caller.cuid (handler.go 129-137): the random 20-letter suffix is
supplied by the caller of the model (randomness oracle); cuid returns the
command joined to the suffix by a colon, together with the bare suffix. -/
def Caller.cuid (cmd suffix : String) : String × String :=
  (cmd ++ ":" ++ suffix, suffix)

/-- Embeds Caller.cuidToID (handler.go 141-145), which runs
fmt.Sscanf over the input with the two-verb format string of the source.
The string verb skips leading white space and then consumes the maximal
run of non-space characters, so it swallows the colon separator together
with the suffix; the literal colon in the format then fails to match (what
remains of the input is empty or starts with white space, never a colon),
scanning stops, and the second destination keeps its zero value: uid is
the empty string for every input. -/
def Caller.cuidToID (input : String) : String × String :=
  let afterSpace := input.toList.dropWhile goSpace
  let cmd := afterSpace.takeWhile (fun ch => ! goSpace ch)
  (String.mk cmd, "")

/-- Embeds Caller.register (handler.go 281-305): upper-cases the command,
creates the inner map when missing, generates the cuid from the supplied
random suffix, stores the handler under the bare uid, and returns the
cuid. -/
def Caller.register (c : Caller) (internal : Bool) (cmd : String)
    (handler : Nat) (suffix : String) : String × Caller :=
  let cmd := cmd.toUpper
  if internal then
    let inner := (mapLookup c.internal cmd).getD []
    let (cuid, uid) := Caller.cuid cmd suffix
    (cuid, { c with internal := mapInsert c.internal cmd (mapInsert inner uid handler) })
  else
    let inner := (mapLookup c.external cmd).getD []
    let (cuid, uid) := Caller.cuid cmd suffix
    (cuid, { c with external := mapInsert c.external cmd (mapInsert inner uid handler) })

/-- Embeds Caller.remove (handler.go 245-267): parses the cuid, rejects
when the parsed command or uid is empty, rejects when the external map has
no entry for the command or when the inner map has no entry under the full
cuid, and otherwise deletes the bare uid from the inner map. The internal
map is never touched. Returns the success flag and the updated caller. -/
def Caller.remove (c : Caller) (cuid : String) : Bool × Caller :=
  let parsed := Caller.cuidToID cuid
  if parsed.1.length = 0 ∨ parsed.2.length = 0 then (false, c)
  else
    match mapLookup c.external parsed.1 with
    | none => (false, c)
    | some inner =>
      match mapLookup inner cuid with
      | none => (false, c)
      | some _ =>
        (true, { c with external := mapInsert c.external parsed.1 (mapErase inner parsed.2) })

/-- Embeds Caller.Remove (handler.go 235-241): takes the registry lock and
delegates to remove. -/
def Caller.Remove (c : Caller) (cuid : String) : Bool × Caller :=
  c.remove cuid

/-- The connection-scoped session state, as used by client.go: the open
transport handle, the connected flag and the connection timestamp.
Transport handles and timestamps are opaque numbers. -/
structure SessionState where
  conn : Option Nat := none
  connected : Bool := false
  connTime : Option Nat := none
deriving DecidableEq

/-- Modelled from the spec: the session-state constructor lives in a
source file not provided (only its callers are). The spec says the state
container is replaced wholesale on every (re)connect and a session starts
not-connected; the fresh value therefore has no transport handle, the
connected flag false and no connection timestamp (the Go zero values of
the fields client.go reads). -/
def newState : SessionState := {}

/-- The Config fields of client.go that the verified methods consult.
Conn is an optional caller-supplied transport handle; ReconnectDelay is in
seconds. -/
structure Config where
  Server : String := ""
  Port : Int := 0
  Password : String := ""
  Nick : String := ""
  User : String := ""
  Name : String := ""
  Conn : Option Nat := none
  Retries : Int := 0
  ReconnectDelay : Nat := 0
deriving DecidableEq

/-- The Client fields of client.go that the verified methods touch: the
config, the session state, the retry counter, the single-flight
reconnecting flag and the three stored cancel functions, each modelled as
the token it would cancel. -/
structure Client where
  config : Config := {}
  state : SessionState := {}
  tries : Int := 0
  reconnecting : Bool := false
  closeRead : Option Nat := none
  closeExec : Option Nat := none
  closeLoop : Option Nat := none
deriving DecidableEq

/-- The effect log of a run: fresh-token and fresh-handle counters, the
set of cancelled tokens, the tokens gating launched reader and dispatch
goroutines, closed transport handles, events pushed onto the Events
channel, events written to the encoder, sleeps performed (seconds), the
number of Connect invocations, and the current clock value. -/
structure World where
  time : Nat := 0
  nextToken : Nat := 0
  nextConn : Nat := 0
  cancelled : List Nat := []
  readerTasks : List Nat := []
  execTasks : List Nat := []
  closedConns : List Nat := []
  queuedEvents : List Event := []
  sentEvents : List Event := []
  sleeps : List Nat := []
  connectCalls : Nat := 0
deriving DecidableEq

/-- Modelled from the spec: the collaborators excluded from the core.
validNick and validUser are the protocol validity rules (format helpers
not among the provided sources); dialErr is the transport-dial outcome;
writeErrs gives the outcome of each successive encoder write (missing
entries mean success); capErr is the capability-negotiation outcome. -/
structure Env where
  validNick : String → Bool := fun _ => true
  validUser : String → Bool := fun _ => true
  dialErr : Option GoErr := none
  writeErrs : List (Option GoErr) := []
  capErr : Option GoErr := none

/-- Invoking a stored cancel function, when one is stored. -/
def cancelToken (w : World) (t : Option Nat) : World :=
  match t with
  | some tok => { w with cancelled := w.cancelled ++ [tok] }
  | none => w

/-- Pushing an event onto the Events channel. -/
def World.pushEvent (w : World) (e : Event) : World :=
  { w with queuedEvents := w.queuedEvents ++ [e] }

/-- A successful encoder write. -/
def World.writeEvent (w : World) (e : Event) : World :=
  { w with sentEvents := w.sentEvents ++ [e] }

/-- Recording one sleep of the given number of seconds. -/
def World.sleep (w : World) (d : Nat) : World :=
  { w with sleeps := w.sleeps ++ [d] }

/-- Embeds Client.Server (client.go 487-489). -/
def Client.Server (c : Client) : String :=
  c.config.Server ++ ":" ++ toString c.config.Port

/-- Embeds Client.cleanup (client.go 219-243): under the connection lock,
closes the state connection if one is open, invokes the stored closeRead
and closeExec cancel functions when non-nil, and, only on a full cleanup,
closeLoop as well. No Client field is written. -/
def Client.cleanup (c : Client) (all : Bool) (w : World) : Client × World :=
  let w := match c.state.conn with
    | some h => { w with closedConns := w.closedConns ++ [h] }
    | none => w
  let w := cancelToken w c.closeRead
  let w := cancelToken w c.closeExec
  let w := if all then cancelToken w c.closeLoop else w
  (c, w)

/-- Embeds Client.quit (client.go 246-253): optionally sends a QUIT
message through Send, pushes a DISCONNECTED virtual event onto the Events
channel, then performs a partial cleanup. -/
def Client.quit (c : Client) (sendMessage : Bool) (w : World) : Client × World :=
  let w := if sendMessage then
    w.writeEvent { command := QUIT, trailing := "disconnecting..." }
    else w
  let w := w.pushEvent { command := DISCONNECTED, trailing := c.Server }
  c.cleanup false w

/-- Embeds Client.Quit (client.go 256-258). -/
def Client.Quit (c : Client) (w : World) : Client × World :=
  c.quit true w

/-- Embeds Client.Stop (client.go 273-276): quit without a message, then
push a STOPPED virtual event. -/
def Client.Stop (c : Client) (w : World) : Client × World :=
  let r := c.quit false w
  (r.1, r.2.pushEvent { command := STOPPED, trailing := r.1.Server })

/-- Embeds Client.connectMessages (client.go 368-385). The method has a
pointer receiver and assigns Config.Name from Config.User when Name is
empty, so the updated client is returned with the message list. -/
def Client.connectMessages (c : Client) : Client × List Event :=
  let pw : List Event :=
    if c.config.Password ≠ "" then
      [{ command := PASS, params := [c.config.Password] }]
    else []
  let c := if c.config.Name = "" then
    { c with config := { c.config with Name := c.config.User } }
    else c
  (c, pw ++ [{ command := NICK, params := [c.config.Nick] },
    { command := USER, params := [c.config.User, "+iw", "*"], trailing := c.config.Name }])

/-- Writes the connect messages in order, stopping at the first encoder
error reported by the oracle list (positional; missing entries succeed). -/
def writeAll (events : List Event) (errs : List (Option GoErr)) (w : World) :
    Option GoErr × World :=
  match events, errs with
  | [], _ => (none, w)
  | e :: rest, [] => writeAll rest [] (w.writeEvent e)
  | e :: rest, none :: es => writeAll rest es (w.writeEvent e)
  | _ :: _, some err :: _ => (some err, w)

/-- Embeds client.go 309-326: when Config.Conn is nil, dial per the
oracle and install the fresh handle into the state; otherwise install the
caller-supplied handle. On a dial error the state keeps no handle. -/
def connDial (c : Client) (env : Env) (w : World) : Option GoErr × Client × World :=
  match c.config.Conn with
  | some h => (none, { c with state := { c.state with conn := some h } }, w)
  | none =>
    match env.dialErr with
    | some e => (some e, c, w)
    | none =>
      (none, { c with state := { c.state with conn := some w.nextConn } },
        { w with nextConn := w.nextConn + 1 })

/-- Stage 3 of Client.Connect (client.go 342-363): capability listing,
then the success wiring: tries and reconnecting reset, the
timestamp-then-connected state update under one lock acquisition, and the
token assignments of lines 357-361 exactly as written in the source: both
context.WithCancel cancel functions are assigned to closeRead (the second
assignment overwrites the first) and closeExec is never assigned, while
the reader goroutine is gated by the first token and the dispatch
goroutine by the second. -/
def connectCap (c : Client) (env : Env) (w : World) : Option GoErr × Client × World :=
  match env.capErr with
  | some e => (some e, c, w)
  | none =>
    let c := { c with tries := 0, reconnecting := false }
    let c := { c with state :=
      { c.state with connTime := some w.time, connected := true } }
    let t1 := w.nextToken
    let t2 := w.nextToken + 1
    let w := { w with nextToken := w.nextToken + 2 }
    let c := { c with closeRead := some t1 }
    let c := { c with closeRead := some t2 }
    let w := { w with readerTasks := w.readerTasks ++ [t1] }
    let w := { w with execTasks := w.execTasks ++ [t2] }
    (none, c, w)

/-- Stage 2 of Client.Connect (client.go 331-344): the INITIALIZED
virtual event, the connect messages written in order, then stage 3. -/
def connectWrite (c : Client) (env : Env) (w : World) : Option GoErr × Client × World :=
  let w := w.pushEvent { command := INITIALIZED, trailing := c.Server }
  let r := c.connectMessages
  match writeAll r.2 env.writeErrs w with
  | (some e, w) => (some e, r.1, w)
  | (none, w) => connectCap r.1 env w

/-- Stage 1 of Client.Connect (client.go 296-330): partial cleanup under
the connection lock, wholesale session-state reset, dial, then stage 2. -/
def connectSetup (c : Client) (env : Env) (w : World) : Option GoErr × Client × World :=
  let r0 := c.cleanup false w
  let c := { r0.1 with state := newState }
  match connDial c env r0.2 with
  | (some e, c, w) => (some e, c, w)
  | (none, c, w) => connectWrite c env w

/-- Embeds Client.Connect (client.go 279-364): the three synchronous
validation checks returning configuration errors before any effect, then
the staged body above. -/
def Client.Connect (c : Client) (env : Env) (w : World) : Option GoErr × Client × World :=
  let w := { w with connectCalls := w.connectCalls + 1 }
  if c.config.Server = "" then (some .invalidServer, c, w)
  else if c.config.Port < 21 ∨ c.config.Port > 65535 then (some .invalidPort, c, w)
  else if ¬ (env.validNick c.config.Nick ∧ env.validUser c.config.User) then
    (some .invalidNickUser, c, w)
  else connectSetup c env w

/-- The retry for-loop of client.go line 413 after its init statement has
run: while the error is non-nil and tries is below Retries, the body logs
and sleeps, and the post statement increments tries. The error variable is
never reassigned inside the loop, so the guard is driven solely by the
counter; the iteration count (retries - tries) is the structural fuel. -/
def reconnectLoopAux (delay : Nat) : Nat → Int → World → Int × World
  | 0, tries, w => (tries, w)
  | fuel + 1, tries, w => reconnectLoopAux delay fuel (tries + 1) (w.sleep delay)

/-- The loop of line 413 for a non-nil error value: runs until tries
reaches Retries, sleeping once per iteration. (With a nil error the loop
is never entered; Connect succeeded and reconnect returns nil directly.) -/
def reconnectLoop (retries : Int) (delay : Nat) (tries : Int) (w : World) :
    Int × World :=
  reconnectLoopAux delay (retries - tries).toNat tries w

/-- Embeds Client.reconnect (client.go 389-424): the single-flight check
returning ErrDisconnected, the deferred reset of the reconnecting flag
applied at every later return, the partial cleanup, the delay floor (a
configured delay below 10 seconds is replaced by 25 seconds), the
retry-count gate bypassed when remoteInvoked, the pre-attempt sleep, the
for-loop of line 413 whose init statement performs the one and only
Connect call, and the final cleanup on a non-nil error. -/
def Client.reconnect (c : Client) (env : Env) (remoteInvoked : Bool) (w : World) :
    Option GoErr × Client × World :=
  if c.reconnecting then (some .disconnected, c, w)
  else
    let c := { c with reconnecting := true }
    let r0 := c.cleanup false w
    let c := r0.1
    let w := r0.2
    let c := if c.config.ReconnectDelay < 10 then
      { c with config := { c.config with ReconnectDelay := 25 } }
      else c
    if c.config.Retries < 1 ∧ ¬ remoteInvoked then
      (some .disconnected, { c with reconnecting := false }, w)
    else
      let w := w.sleep c.config.ReconnectDelay
      match c.Connect env w with
      | (none, c, w) => (none, { c with reconnecting := false }, w)
      | (some e, c, w) =>
        let r1 := reconnectLoop c.config.Retries c.config.ReconnectDelay c.tries w
        let c := { c with tries := r1.1 }
        let r2 := c.cleanup false r1.2
        (some e, { r2.1 with reconnecting := false }, r2.2)

/-- Embeds Client.Reconnect (client.go 428-430). -/
def Client.Reconnect (c : Client) (env : Env) (w : World) :
    Option GoErr × Client × World :=
  c.reconnect env true w

/-- Embeds Client.IsConnected (client.go 548-554). -/
def Client.IsConnected (c : Client) : Bool :=
  c.state.connected

/-- Embeds Client.Uptime (client.go 521-531): the not-connected guard,
then the connTime pointer is returned as read. -/
def Client.Uptime (c : Client) : Except GoErr (Option Nat) :=
  if ¬ c.IsConnected then .error .notConnected
  else .ok c.state.connTime

/-- Embeds Client.ConnSince (client.go 535-545): the not-connected guard,
then time.Since dereferences the connTime pointer. The dereference is
modelled as an Option layer: the outer none stands for a nil-pointer
fault, which the Go code would hit iff connTime is nil at that point. -/
def Client.ConnSince (c : Client) (now : Nat) : Option (Except GoErr Nat) :=
  if ¬ c.IsConnected then some (.error .notConnected)
  else
    match c.state.connTime with
    | some t => some (.ok (now - t))
    | none => none

/-- Embeds the loop body of Client.Join (client.go 632-655) over the
remaining channels; the source iterates by index and tests for the last
index, which here is the empty-tail test. Arguments: the channel-validity
oracle, the per-send encoder outcome oracle (indexed by how many sends
happened so far), the max budget (an Int, as in the source), the remaining
channels, the send count, the accumulated buffer and the list of buffers
sent so far. When the buffer plus a comma plus the next channel would
exceed the budget, the source sends the pending buffer, resets it and
continues with the next index — without adding the current channel. -/
def joinLoop (valid : String → Bool) (sendErr : Nat → Option GoErr) (max : Int) :
    List String → Nat → String → List String → Except GoErr (List String)
  | [], _, _, sent => .ok sent
  | ch :: rest, sends, buffer, sent =>
    if ¬ valid ch then .error (.invalidTarget ch)
    else if ((buffer ++ "," ++ ch).length : Int) > max then
      match sendErr sends with
      | some e => .error e
      | none => joinLoop valid sendErr max rest (sends + 1) "" (sent ++ [buffer])
    else
      let buffer := if buffer.length = 0 then ch else buffer ++ "," ++ ch
      match rest with
      | [] =>
        match sendErr sends with
        | some e => .error e
        | none => .ok (sent ++ [buffer])
      | _ :: _ => joinLoop valid sendErr max rest sends buffer sent

/-- Embeds Client.Join (client.go 624-658): the budget is maxLength minus
the length of JOIN minus one. maxLength is a protocol constant from a
source file not provided, so it is a parameter here; each returned string
is the channel parameter of one sent JOIN event. -/
def Join (valid : String → Bool) (sendErr : Nat → Option GoErr)
    (maxLength : Nat) (channels : List String) : Except GoErr (List String) :=
  joinLoop valid sendErr ((maxLength : Int) - (JOIN.length : Int) - 1) channels 0 "" []

/-- Embeds Client.Part (client.go 670-676): after channel validation the
outbound event is built with Command JOIN, exactly as in the source. The
message argument is accepted and ignored, as in the source. -/
def Part (valid : String → Bool) (channel message : String) : Except GoErr Event :=
  if ¬ valid channel then .error (.invalidTarget channel)
  else .ok { command := JOIN, params := [channel] }

/-- Embeds Client.PartMessage (client.go 679-685): the outbound event is
built with Command JOIN carrying the message as trailing. -/
def PartMessage (valid : String → Bool) (channel message : String) :
    Except GoErr Event :=
  if ¬ valid channel then .error (.invalidTarget channel)
  else .ok { command := JOIN, params := [channel], trailing := message }

/-- A Go slice header: a reference into a backing array. Copying the
containing struct copies the header, not the storage it points to. -/
structure GoSlice where
  ref : Nat
deriving DecidableEq

/-- The Event struct as the dispatch engine manipulates it: Params is a
slice header into shared backing storage; Command and Trailing are string
values held directly in the struct. -/
structure HeapEvent where
  command : String
  params : GoSlice
  trailing : String
deriving DecidableEq

/-- Backing storage for slice contents. -/
def Heap : Type := Nat → List String

/-- Reading element i of a slice. -/
def Heap.read (h : Heap) (s : GoSlice) (i : Nat) : String :=
  (h s.ref).getD i ""

/-- In-place assignment to element i of a slice. -/
def Heap.write (h : Heap) (s : GoSlice) (i : Nat) (v : String) : Heap :=
  fun r => if r = s.ref then (h s.ref).set i v else h r

/-- Embeds the argument each launched handler receives at handler.go line
186: every goroutine evaluates the dereference of the one shared event
pointer, yielding the same field-wise copy of the struct for every handler
index — in particular the same params slice header. -/
def execArg (e : HeapEvent) (index : Nat) : HeapEvent :=
  e

/-- Embeds New (client.go 143-170) restricted to the modelled fields: the
supplied config with a fresh state, zero tries, the reconnecting flag
down and no stored cancel functions. -/
def NewClient (cfg : Config) : Client :=
  { config := cfg, state := newState }

/-- The client states reachable through the lifecycle operations of
client.go: construction, Connect, cleanup, quit, Quit, Stop and both
reconnect entry points, under arbitrary oracles and effect logs. -/
inductive Reachable : Client → Prop where
  | new (cfg : Config) : Reachable (NewClient cfg)
  | connect {c : Client} (env : Env) (w : World) :
      Reachable c → Reachable (c.Connect env w).2.1
  | cleanup {c : Client} (all : Bool) (w : World) :
      Reachable c → Reachable (c.cleanup all w).1
  | quit {c : Client} (b : Bool) (w : World) :
      Reachable c → Reachable (c.quit b w).1
  | stop {c : Client} (w : World) :
      Reachable c → Reachable (c.Stop w).1
  | reconnect {c : Client} (env : Env) (ri : Bool) (w : World) :
      Reachable c → Reachable (c.reconnect env ri w).2.1

/-- The session-state invariant of claim C10: a connected state carries a
connection timestamp. -/
def stateInv (c : Client) : Prop :=
  c.state.connected = true → c.state.connTime.isSome

/-- A one-cell backing store used to exercise the dispatch copy model. -/
def demoHeap : Heap := fun _ => ["#chan"]

/-- A demo event whose params slice points at cell 0 of demoHeap. -/
def demoEvent : HeapEvent := { command := "PRIVMSG", params := ⟨0⟩, trailing := "hi" }

/-- A client whose session is live: connected with a timestamp. -/
def demoConnected : Client := { state := { connected := true, connTime := some 5 } }

/-- A valid demo configuration (non-empty server, in-range port). -/
def demoConfig : Config :=
  { Server := "irc.example.org", Port := 6667, Nick := "nick", User := "user" }

/-- The demo configuration with two retries and a 30-second delay. -/
def demoRetryConfig : Config :=
  { demoConfig with Retries := 2, ReconnectDelay := 30 }

end Girc

namespace Girc

/-- C3: for every handler registered in the external registry, Remove with
the returned identifier returns true and deletes it; Remove with a
malformed or unregistered identifier returns false with no side effect.
What the code does: cuidToID parses every identifier to an empty uid, so
remove (and hence Remove) returns false and leaves both registries
untouched for every input, registered identifiers included. -/
theorem remove_never_deletes (c : Caller) (cuid : String) :
    c.Remove cuid = (false, c) ∧ c.remove cuid = (false, c) := by
  have h : c.remove cuid = (false, c) := by
    unfold Caller.remove Caller.cuidToID
    simp
  exact ⟨h, h⟩

theorem cancelToken_frame (w : World) (t : Option Nat) :
    (cancelToken w t).readerTasks = w.readerTasks
    ∧ (cancelToken w t).execTasks = w.execTasks
    ∧ (cancelToken w t).connectCalls = w.connectCalls := by
  cases t <;> simp [cancelToken]

theorem cleanup_client_id (c : Client) (all : Bool) (w : World) :
    (c.cleanup all w).1 = c := rfl

theorem quit_client_id (c : Client) (b : Bool) (w : World) :
    (c.quit b w).1 = c := rfl

theorem stop_client_id (c : Client) (w : World) :
    (c.Stop w).1 = c := rfl

theorem cleanup_world_frame (c : Client) (all : Bool) (w : World) :
    (c.cleanup all w).2.readerTasks = w.readerTasks
    ∧ (c.cleanup all w).2.execTasks = w.execTasks := by
  unfold Client.cleanup
  cases hc : c.state.conn <;> cases all <;>
    cases hr : c.closeRead <;> cases he : c.closeExec <;> cases hl : c.closeLoop <;>
    simp [cancelToken]

theorem connDial_frame (c : Client) (env : Env) (w : World) :
    (connDial c env w).2.1.state.connected = c.state.connected
    ∧ (connDial c env w).2.1.state.connTime = c.state.connTime
    ∧ (connDial c env w).2.2.readerTasks = w.readerTasks
    ∧ (connDial c env w).2.2.execTasks = w.execTasks := by
  unfold connDial
  cases hc : c.config.Conn <;> cases hd : env.dialErr <;> simp

theorem connectMessages_state (c : Client) :
    (c.connectMessages).1.state = c.state := by
  unfold Client.connectMessages
  by_cases h : c.config.Name = "" <;> simp [h]

theorem writeAll_frame (events : List Event) (errs : List (Option GoErr)) (w : World) :
    (writeAll events errs w).2.readerTasks = w.readerTasks
    ∧ (writeAll events errs w).2.execTasks = w.execTasks := by
  induction events generalizing errs w with
  | nil => simp [writeAll]
  | cons e rest ih =>
    cases errs with
    | nil => simpa [writeAll, World.writeEvent] using ih [] (w.writeEvent e)
    | cons o es =>
      cases o with
      | none => simpa [writeAll, World.writeEvent] using ih es (w.writeEvent e)
      | some err => simp [writeAll]

theorem connDial_of_eq {x : Client} {env : Env} {w : World} {o : Option GoErr}
    {c2 : Client} {w2 : World} (heq : connDial x env w = (o, c2, w2)) :
    c2.state.connected = x.state.connected
    ∧ c2.state.connTime = x.state.connTime
    ∧ w2.readerTasks = w.readerTasks
    ∧ w2.execTasks = w.execTasks := by
  have h := connDial_frame x env w
  rw [heq] at h
  simpa using h

theorem writeAll_of_eq {events : List Event} {errs : List (Option GoErr)}
    {w : World} {o : Option GoErr} {w2 : World}
    (heq : writeAll events errs w = (o, w2)) :
    w2.readerTasks = w.readerTasks ∧ w2.execTasks = w.execTasks := by
  have h := writeAll_frame events errs w
  rw [heq] at h
  simpa using h

theorem connectCap_cases (c : Client) (env : Env) (w : World) :
    ((connectCap c env w).1.isSome
      ∧ (connectCap c env w).2.1 = c
      ∧ (connectCap c env w).2.2 = w)
    ∨ ((connectCap c env w).1 = none
      ∧ (connectCap c env w).2.1.state.connected = true
      ∧ (connectCap c env w).2.1.state.connTime.isSome) := by
  unfold connectCap
  cases hce : env.capErr with
  | some e => left; simp
  | none => right; simp

theorem connectWrite_cases (c : Client) (env : Env) (w : World) :
    ((connectWrite c env w).1.isSome
      ∧ (connectWrite c env w).2.1.state = c.state
      ∧ (connectWrite c env w).2.2.readerTasks = w.readerTasks
      ∧ (connectWrite c env w).2.2.execTasks = w.execTasks)
    ∨ ((connectWrite c env w).1 = none
      ∧ (connectWrite c env w).2.1.state.connected = true
      ∧ (connectWrite c env w).2.1.state.connTime.isSome) := by
  unfold connectWrite
  dsimp only
  split
  next e w4 heq =>
    left
    have hf := writeAll_of_eq heq
    simp [connectMessages_state, World.pushEvent] at hf ⊢
    exact hf
  next w4 heq =>
    have hf := writeAll_of_eq heq
    rcases connectCap_cases (c.connectMessages).1 env w4 with ⟨h1, h2, h3⟩ | ⟨h1, h2, h3⟩
    · left
      refine ⟨h1, ?_, ?_, ?_⟩
      · rw [h2]; exact connectMessages_state c
      · rw [h3]; simpa [World.pushEvent] using hf.1
      · rw [h3]; simpa [World.pushEvent] using hf.2
    · right
      exact ⟨h1, h2, h3⟩

theorem connectSetup_cases (c : Client) (env : Env) (w : World) :
    ((connectSetup c env w).1.isSome
      ∧ (connectSetup c env w).2.1.state.connected = false
      ∧ (connectSetup c env w).2.2.readerTasks = w.readerTasks
      ∧ (connectSetup c env w).2.2.execTasks = w.execTasks)
    ∨ ((connectSetup c env w).1 = none
      ∧ (connectSetup c env w).2.1.state.connected = true
      ∧ (connectSetup c env w).2.1.state.connTime.isSome) := by
  unfold connectSetup
  dsimp only
  have hcw := cleanup_world_frame c false w
  split
  next e c2 w2 heq =>
    left
    have hf := connDial_of_eq heq
    refine ⟨by simp, ?_, ?_, ?_⟩
    · rw [hf.1]; simp [cleanup_client_id, newState]
    · rw [hf.2.2.1]; exact hcw.1
    · rw [hf.2.2.2]; exact hcw.2
  next c2 w2 heq =>
    have hf := connDial_of_eq heq
    rcases connectWrite_cases c2 env w2 with ⟨h1, h2, h3, h4⟩ | ⟨h1, h2, h3⟩
    · left
      refine ⟨h1, ?_, ?_, ?_⟩
      · rw [h2, hf.1]; simp [cleanup_client_id, newState]
      · rw [h3, hf.2.2.1]; exact hcw.1
      · rw [h4, hf.2.2.2]; exact hcw.2
    · right
      exact ⟨h1, h2, h3⟩

theorem Connect_cases (c : Client) (env : Env) (w : World) :
    ((c.Connect env w).1.isSome
      ∧ (c.Connect env w).2.1 = c
      ∧ (c.Connect env w).2.2.readerTasks = w.readerTasks
      ∧ (c.Connect env w).2.2.execTasks = w.execTasks)
    ∨ ((c.Connect env w).1.isSome
      ∧ (c.Connect env w).2.1.state.connected = false
      ∧ (c.Connect env w).2.2.readerTasks = w.readerTasks
      ∧ (c.Connect env w).2.2.execTasks = w.execTasks)
    ∨ ((c.Connect env w).1 = none
      ∧ (c.Connect env w).2.1.state.connected = true
      ∧ (c.Connect env w).2.1.state.connTime.isSome) := by
  unfold Client.Connect
  by_cases hs : c.config.Server = ""
  · left; simp [hs]
  by_cases hp : c.config.Port < 21 ∨ c.config.Port > 65535
  · left; simp [hs, hp]
  by_cases hv : env.validNick c.config.Nick ∧ env.validUser c.config.User
  · rcases connectSetup_cases c env { w with connectCalls := w.connectCalls + 1 }
      with ⟨h1, h2, h3, h4⟩ | ⟨h1, h2, h3⟩
    · right; left
      simp only [hs, hp, hv, not_true, not_false_iff, if_false, if_true,
        ite_true, ite_false, not_and]
      refine ⟨h1, h2, by simpa using h3, by simpa using h4⟩
    · right; right
      simp only [hs, hp, hv, not_true, not_false_iff, if_false, if_true,
        ite_true, ite_false, not_and]
      exact ⟨h1, h2, h3⟩
  · left; simp [hs, hp, hv]

theorem Connect_stateInv (c : Client) (env : Env) (w : World) (h : stateInv c) :
    stateInv (c.Connect env w).2.1 := by
  rcases Connect_cases c env w with ⟨_, h2, _, _⟩ | ⟨_, h2, _, _⟩ | ⟨_, _, h3⟩
  · rw [h2]; exact h
  · intro hcon; rw [h2] at hcon; cases hcon
  · intro _; exact h3

theorem Connect_stateInv_of_eq {x : Client} {env : Env} {w : World}
    {o : Option GoErr} {c2 : Client} {w2 : World}
    (heq : x.Connect env w = (o, c2, w2)) (h : stateInv x) : stateInv c2 := by
  have h2 := Connect_stateInv x env w h
  rw [heq] at h2
  exact h2

theorem reconnect_stateInv (c : Client) (env : Env) (ri : Bool) (w : World)
    (h : stateInv c) : stateInv (c.reconnect env ri w).2.1 := by
  unfold Client.reconnect
  dsimp only
  split
  · exact h
  · repeat' split
    all_goals first
      | simpa [stateInv, cleanup_client_id] using h
      | (rename_i heq
         have h3 := Connect_stateInv_of_eq heq (by simpa [stateInv, cleanup_client_id] using h)
         simpa [stateInv, cleanup_client_id] using h3)

theorem quit_state_id (c : Client) (b : Bool) (w : World) :
    (c.quit b w).1.state = c.state := rfl

theorem reachable_stateInv {c : Client} (h : Reachable c) : stateInv c := by
  induction h with
  | new cfg =>
    intro hcon
    simp [NewClient, newState] at hcon
  | connect env w _ ih => exact Connect_stateInv _ env w ih
  | cleanup all w _ ih => rw [cleanup_client_id]; exact ih
  | quit b w _ ih => rw [quit_client_id]; exact ih
  | stop w _ ih => rw [stop_client_id]; exact ih
  | reconnect env ri w _ ih => exact reconnect_stateInv _ env ri w ih

/-- C1: the claim says a successful Connect leaves two distinct live
cancellation tokens, one gating the reader task (closeRead) and one gating
the dispatch task (closeExec), and that cleanup cancels both. What the
code does at the failing input (a fresh validly-configured client with a
successful dial, followed by cleanup): Connect launches the reader under
token 0 and the dispatch task under token 1, but line 359 stores the
dispatch cancel function into closeRead, overwriting the reader cancel
stored by line 358, and closeExec is never assigned; the subsequent
cleanup therefore cancels only token 1, and the reader token 0 is never
cancelled. -/
theorem connect_token_wiring_bug :
    (let c0 : Client := NewClient demoConfig
     let r := c0.Connect {} {}
     let rc := (r.2.1.cleanup false r.2.2).2
     r.1 = none
     ∧ r.2.2.readerTasks = [0]
     ∧ r.2.2.execTasks = [1]
     ∧ r.2.1.closeRead = some 1
     ∧ r.2.1.closeExec = none
     ∧ rc.cancelled = [1]
     ∧ ¬ (0 ∈ rc.cancelled)) :=
  ⟨rfl, rfl, rfl, rfl, rfl, rfl, by decide⟩

/-- C2: the claim says a reconnect whose first connect attempt fails
re-attempts connect up to Retries times, sleeping between attempts, and
returns the last attempt's error. What the code does at the failing input
(fresh client, Retries 2, delay 30, every dial failing): the for-loop of
client.go line 413 calls Connect only in its init statement, so exactly
one connect attempt happens, the loop merely sleeps twice more while the
try counter climbs to 2, and the single attempt's error is returned. -/
theorem reconnect_single_connect_attempt :
    (let c0 : Client := NewClient demoRetryConfig
     let r := c0.reconnect { dialErr := some (GoErr.dialFailed 0) } false {}
     r.1 = some (GoErr.dialFailed 0)
     ∧ r.2.2.connectCalls = 1
     ∧ r.2.2.sleeps = [30, 30, 30]
     ∧ r.2.1.tries = 2) :=
  ⟨rfl, rfl, rfl, rfl⟩

/-- C4 counterexample: the claim says a reconnect call made while one is
in progress returns the already-in-progress error (ErrAlreadyConnecting,
client.go 130). At the concrete in-progress client the returned error is
ErrDisconnected, which is not ErrAlreadyConnecting. -/
theorem reconnect_inflight_error_identity :
    (({ reconnecting := true } : Client).reconnect {} false {}).1
      = some GoErr.disconnected
    ∧ (({ reconnecting := true } : Client).reconnect {} false {}).1
      ≠ some GoErr.alreadyConnecting :=
  ⟨rfl, by decide⟩

/-- C4 (amended): whenever the reconnecting flag is set, any further
reconnect call returns immediately with the ErrDisconnected error — the
source returns ErrDisconnected here, not ErrAlreadyConnecting — and
performs no cleanup, no sleep and no connect attempt: the client and the
effect log are returned unchanged, so exactly one reconnect sequence is
active at a time. -/
theorem reconnect_inflight_no_side_effects (c : Client) (env : Env) (ri : Bool)
    (w : World) (h : c.reconnecting = true) :
    c.reconnect env ri w = (some GoErr.disconnected, c, w) := by
  unfold Client.reconnect
  simp [h]

theorem reconnect_inflight_no_side_effects_witness :
    ({ reconnecting := true } : Client).reconnecting = true
    ∧ ({ reconnecting := true } : Client).reconnect {} true {}
      = (some GoErr.disconnected, { reconnecting := true }, {}) :=
  ⟨rfl, reconnect_inflight_no_side_effects { reconnecting := true } {} true {} rfl⟩

/-- C5 counterexample: the claim says each launched handler receives an
independent copy of the event including its parameter list, so no
handler's mutation of a params element is observable by another handler.
At the concrete input, handler 0 writes params element 0 of its copy and
handler 1 reads the new value through its own copy: the backing array of
the params slice is shared between the copies. -/
theorem exec_event_params_shared_cex :
    Heap.read (Heap.write demoHeap (execArg demoEvent 0).params 0 ("mutated"))
      (execArg demoEvent 1).params 0 = "mutated"
    ∧ ("mutated" : String) ≠ "#chan" :=
  ⟨rfl, by decide⟩

/-- C5 (amended): each launched handler receives the same field-wise
(shallow) copy of the dereferenced event: reassigning the command or
trailing string of one copy is invisible to the others (those are values
held directly in the struct, and the copies carry the event's own values),
but the params field is a slice header into shared backing storage, so an
in-place write to a params element through one handler's copy is read back
by every other handler's copy of the same event. -/
theorem exec_arg_shallow_copy (h : Heap) (e : HeapEvent) (i j k : Nat) (v : String)
    (hk : k < (h e.params.ref).length) :
    Heap.read (Heap.write h (execArg e i).params k v) (execArg e j).params k = v
    ∧ execArg e i = execArg e j
    ∧ (execArg e i).command = e.command
    ∧ (execArg e i).trailing = e.trailing := by
  refine ⟨?_, rfl, rfl, rfl⟩
  unfold Heap.read Heap.write execArg
  simp [List.getElem?_set_eq_of_lt v hk]

theorem exec_arg_shallow_copy_witness :
    0 < (demoHeap demoEvent.params.ref).length
    ∧ (Heap.read (Heap.write demoHeap (execArg demoEvent 0).params 0 ("zzz"))
        (execArg demoEvent 1).params 0 = "zzz"
      ∧ execArg demoEvent 0 = execArg demoEvent 1
      ∧ (execArg demoEvent 0).command = demoEvent.command
      ∧ (execArg demoEvent 0).trailing = demoEvent.trailing) :=
  ⟨by decide, exec_arg_shallow_copy demoHeap demoEvent 0 1 0 ("zzz") (by decide)⟩

/-- C6: the claim says Join splits the channel list into JOIN lines within
the length budget with every input channel appearing in exactly one sent
line. What the code does at the failing input (budget 20, three valid
channels, every send succeeding): when the second channel overflows the
buffer, the source sends the pending buffer and continues with the next
index without adding the overflowing channel, so the second channel
appears in no sent line. -/
theorem join_drops_split_channel :
    Join (fun _ => true) (fun _ => none) 20 ["#aaaaaaaa", "#bbbbbbbb", "#cc"]
      = Except.ok ["#aaaaaaaa", "#cc"] := rfl

/-- C7: Connect with an empty server, an out-of-range port or an invalid
nickname/username returns the matching configuration error synchronously
with the client untouched; and every error return of Connect (validation,
dial, write or capability) starts no reader or dispatch task and leaves
the session state not-connected. -/
theorem connect_error_no_tasks (c : Client) (env : Env) (w : World)
    (h : c.state.connected = false) :
    ((c.Connect env w).1.isSome →
      (c.Connect env w).2.1.state.connected = false
      ∧ (c.Connect env w).2.2.readerTasks = w.readerTasks
      ∧ (c.Connect env w).2.2.execTasks = w.execTasks)
    ∧ (c.config.Server = "" →
      (c.Connect env w).1 = some GoErr.invalidServer ∧ (c.Connect env w).2.1 = c)
    ∧ (c.config.Server ≠ "" → c.config.Port < 21 ∨ c.config.Port > 65535 →
      (c.Connect env w).1 = some GoErr.invalidPort ∧ (c.Connect env w).2.1 = c)
    ∧ (c.config.Server ≠ "" → ¬ (c.config.Port < 21 ∨ c.config.Port > 65535) →
      ¬ (env.validNick c.config.Nick ∧ env.validUser c.config.User) →
      (c.Connect env w).1 = some GoErr.invalidNickUser ∧ (c.Connect env w).2.1 = c) := by
  refine ⟨?_, ?_, ?_, ?_⟩
  · intro hsome
    rcases Connect_cases c env w with ⟨_, h2, h3, h4⟩ | ⟨_, h2, h3, h4⟩ | ⟨h1, _, _⟩
    · exact ⟨by rw [h2]; exact h, h3, h4⟩
    · exact ⟨h2, h3, h4⟩
    · rw [h1] at hsome; cases hsome
  · intro hs
    simp [Client.Connect, hs]
  · intro hs hp
    simp [Client.Connect, hs, hp]
  · intro hs hp hv
    simp [Client.Connect, hs, hp, hv]

theorem connect_error_no_tasks_witness :
    (NewClient {}).state.connected = false
    ∧ (((NewClient {}).Connect {} {}).1 = some GoErr.invalidServer
      ∧ ((NewClient {}).Connect {} {}).2.1 = NewClient {}) :=
  ⟨rfl, (connect_error_no_tasks (NewClient {}) {} {} rfl).2.1 rfl⟩

/-- C8: for every valid channel name, Part and PartMessage send an
outbound event whose command is the join-style command JOIN carrying the
channel as parameter, not a part-style command. -/
theorem part_sends_join (valid : String → Bool) (channel message : String)
    (h : valid channel = true) :
    Part valid channel message = Except.ok { command := JOIN, params := [channel] }
    ∧ PartMessage valid channel message
      = Except.ok { command := JOIN, params := [channel], trailing := message }
    ∧ JOIN ≠ PART := by
  refine ⟨by simp [Part, h], by simp [PartMessage, h], by decide⟩

theorem part_sends_join_witness :
    (fun _ => true : String → Bool) ("#chan") = true
    ∧ (Part (fun _ => true) ("#chan") ("bye")
        = Except.ok { command := JOIN, params := ["#chan"] }
      ∧ PartMessage (fun _ => true) ("#chan") ("bye")
        = Except.ok { command := JOIN, params := ["#chan"], trailing := "bye" }
      ∧ JOIN ≠ PART) :=
  ⟨rfl, part_sends_join (fun _ => true) ("#chan") ("bye") rfl⟩

/-- C9: neither quit nor cleanup clears the connected flag of the session
state: after quit (Quit or Stop) or any cleanup, IsConnected still returns
true, the state is untouched, and the Uptime and ConnSince queries still
succeed — a fresh state arrives only through the next Connect. -/
theorem quit_cleanup_keep_connected (c : Client) (w : World) (b all : Bool) (now : Nat)
    (hcon : c.state.connected = true) (ht : c.state.connTime.isSome) :
    (c.quit b w).1.IsConnected = true
    ∧ (c.cleanup all w).1.IsConnected = true
    ∧ (c.Stop w).1.IsConnected = true
    ∧ (c.quit b w).1.state = c.state
    ∧ (c.cleanup all w).1.state = c.state
    ∧ (c.quit b w).1.Uptime = Except.ok c.state.connTime
    ∧ (∃ d, (c.quit b w).1.ConnSince now = some (Except.ok d)) := by
  rcases Option.isSome_iff_exists.mp ht with ⟨t, htt⟩
  refine ⟨?_, ?_, ?_, rfl, rfl, ?_, ⟨now - t, ?_⟩⟩
  · rw [quit_client_id]; simp [Client.IsConnected, hcon]
  · rw [cleanup_client_id]; simp [Client.IsConnected, hcon]
  · rw [stop_client_id]; simp [Client.IsConnected, hcon]
  · rw [quit_client_id]; simp [Client.Uptime, Client.IsConnected, hcon]
  · rw [quit_client_id]; simp [Client.ConnSince, Client.IsConnected, hcon, htt]

theorem quit_cleanup_keep_connected_witness :
    (demoConnected.state.connected = true ∧ demoConnected.state.connTime.isSome)
    ∧ ((demoConnected.quit true {}).1.IsConnected = true
      ∧ (demoConnected.cleanup false {}).1.IsConnected = true
      ∧ (demoConnected.Stop {}).1.IsConnected = true
      ∧ (demoConnected.quit true {}).1.state = demoConnected.state
      ∧ (demoConnected.cleanup false {}).1.state = demoConnected.state
      ∧ (demoConnected.quit true {}).1.Uptime = Except.ok demoConnected.state.connTime
      ∧ (∃ d, (demoConnected.quit true {}).1.ConnSince 9 = some (Except.ok d))) :=
  ⟨⟨rfl, rfl⟩, quit_cleanup_keep_connected demoConnected {} true false 9 rfl rfl⟩

/-- C10: in every client state reachable through the lifecycle operations,
a set connected flag comes with a present connection timestamp (Connect
writes the timestamp in the same locked block, before setting connected),
so ConnSince's dereference of the timestamp behind its IsConnected guard
never faults. -/
theorem connSince_never_faults {c : Client} (h : Reachable c) (now : Nat) :
    c.ConnSince now ≠ none := by
  have inv := reachable_stateInv h
  unfold Client.ConnSince
  cases hcon : c.state.connected with
  | false => simp [Client.IsConnected, hcon]
  | true =>
    rcases Option.isSome_iff_exists.mp (inv hcon) with ⟨t, htt⟩
    simp [Client.IsConnected, hcon, htt]

theorem connSince_never_faults_witness :
    Client.ConnSince (NewClient {}) 7 ≠ none :=
  connSince_never_faults (Reachable.new {}) 7

end Girc
